import Mathlib

/-!
Shallow embedding of `app/agent/output_wrapper.py`: the `OutputWrapper` base
class (root-directory resolution and `get_remote_file`), the `ImageWrapper`
constructor, and the `get_raw_output` helper.

Modelling choices:
- Machine effects are explicit: the filesystem is a `FileSystem` value threaded
  through each operation; the single `requests.get` call is an oracle of type
  `Except Unit (List Nat)` (`error` = a `RequestException`, `ok` = the response
  body bytes); `tempfile.mkdtemp` and `uuid.uuid4` draw their fresh names from
  explicit `freshDir` / `freshId` parameters.
- Python exceptions become `Except PyError`; a `try/except` becomes a `match`
  on the inner result.
- PIL PNG serialisation is modelled losslessly (PNG is a lossless format): a
  saved image is a magic marker followed by its pixel payload, and decoding
  inverts that.
- Python truthiness: a `PIL.Image` defines neither `__bool__` nor `__len__`,
  so a present `raw_data` image is always truthy; `None` is falsy; a string
  root path is truthy iff nonempty.
-/

/-- A decoded PIL image, reduced to its pixel payload. -/
structure PILImage where
  pixels : List Nat
deriving Repr, DecidableEq

/-- The PNG magic marker used by the lossless codec model. -/
def pngMagic : List Nat := [137, 80, 78, 71]

/-- Serialising an image to PNG bytes (`PIL.Image.save`), modelled losslessly. -/
def encodePng (img : PILImage) : List Nat := pngMagic ++ img.pixels

/-- Decoding PNG bytes back to an image; fails on non-PNG payloads. -/
def decodePng (bs : List Nat) : Option PILImage :=
  if bs.take 4 = pngMagic then some ⟨bs.drop 4⟩ else none

/-- The filesystem state: files (path to bytes) and created directories. -/
structure FileSystem where
  files : List (String × List Nat)
  dirs : List String
deriving Repr, DecidableEq

/-- `os.path.isfile`. -/
def FileSystem.isfile (fs : FileSystem) (p : String) : Bool :=
  (fs.files.lookup p).isSome

/-- Python exceptions that the embedded code can raise. -/
inductive PyError
  | fileNotFound (msg : String)
  | unidentifiedImage (msg : String)
  | typeError (msg : String)
deriving Repr, DecidableEq

/-- `tempfile.gettempdir()`: the platform default temp root used when
`root_path` is `None`. -/
def tempDefault : String := "/tmp"

/-- `os.path.join` for one component. -/
def joinPath (a b : String) : String := a ++ "/" ++ b

/-- `PIL.Image.open(path)`: `FileNotFoundError` when the path has no file,
`UnidentifiedImageError` when the bytes do not decode. -/
def imageOpen (fs : FileSystem) (path : String) : Except PyError PILImage :=
  match fs.files.lookup path with
  | none => .error (.fileNotFound path)
  | some bs =>
    match decodePng bs with
    | some img => .ok img
    | none => .error (.unidentifiedImage path)

/-- `tempfile.mkdtemp(dir=root)`: creates the fresh directory `freshDir`
under `root` (or the platform default) and returns its full path. -/
def mkdtemp (root : Option String) (freshDir : String) (fs : FileSystem) :
    String × FileSystem :=
  let d := joinPath (root.getD tempDefault) freshDir
  (d, { fs with dirs := d :: fs.dirs })

/-- `open(path, 'wb')` followed by `f.write(bs)`. -/
def writeFile (fs : FileSystem) (p : String) (bs : List Nat) : FileSystem :=
  { fs with files := (p, bs) :: fs.files }

/-- `OutputWrapper.get_remote_file(remote_path, suffix)`: fetch the remote
bytes, and on success write them to `<root>/<freshDir>/<freshId>.<suffix>` and
return that path; on a `RequestException` return `remote_path` unchanged.
`requests.get` and `response.content` both happen before `mkdtemp`, so a
network failure touches no filesystem state. -/
def get_remote_file (root : Option String) (net : Except Unit (List Nat))
    (freshDir freshId : String) (remote_path suffix : String)
    (fs : FileSystem) : String × FileSystem :=
  match net with
  | .ok obj =>
    let dfs := mkdtemp root freshDir fs
    let path := joinPath dfs.1 (freshId ++ "." ++ suffix)
    (path, writeFile dfs.2 path obj)
  | .error _ => (remote_path, fs)

/-- The attribute state of an `OutputWrapper` instance; all four attributes
start as `None` in `OutputWrapper.__init__` and may be set by the subclass. -/
structure OutputWrapper where
  _repr : Option String
  _path : Option String
  _raw_data : Option PILImage
  root_path : Option String
deriving Repr, DecidableEq

/-- Root-directory resolution in `OutputWrapper.__init__`:
`os.environ.get('OUTPUT_FILE_DIRECTORY', None)`; when the value is truthy and
the directory does not exist, `os.makedirs` is attempted and any exception is
swallowed by resetting `root_path` to `None`. The result is `Except`-valued to
record that this resolution itself propagates no exception. -/
def outputWrapperInitRoot (env : Option String) (path_exists : String → Bool)
    (makedirs : String → Except PyError Unit) :
    Except PyError (Option String) :=
  match env with
  | none => .ok none
  | some r =>
    if r != "" && !(path_exists r) then
      match makedirs r with
      | .ok _ => .ok (some r)
      | .error _ => .ok none
    else .ok (some r)

/-- The pure value of root resolution (it never raises, see
`outputWrapperInitRoot_eq`). -/
def resolveRoot (env : Option String) (path_exists : String → Bool)
    (makedirs : String → Except PyError Unit) : Option String :=
  match env with
  | none => none
  | some r =>
    if r != "" && !(path_exists r) then
      match makedirs r with
      | .ok _ => some r
      | .error _ => none
    else some r

/-- The three input variants accepted by `ImageWrapper.__init__`: a string
(path or URL), a numeric array, or an already-decoded image handle. -/
inductive ImageInput
  | str (s : String)
  | arr (a : List Int)
  | img (i : PILImage)
deriving Repr, DecidableEq

/-- `Image.fromarray(image.astype(np.uint8))`: each array element is wrapped
into an unsigned 8-bit pixel value. -/
def fromarray_uint8 (a : List Int) : PILImage :=
  ⟨a.map fun x => (x % 256).toNat⟩

/-- The body of `ImageWrapper.__init__` after `super().__init__()` resolved
`root`. String inputs: an existing file is kept as the path, otherwise
`get_remote_file` runs; then `Image.open` is tried on the resulting path,
where a `FileNotFoundError` is re-raised as
`FileNotFoundError('Invalid path: <original input>')` (the `image` variable
was not rebound when `Image.open` raised) and any other error propagates.
Non-string inputs: arrays are converted via `fromarray_uint8`, and the image
is saved as `<dir>/<uuid>.png` in a fresh `mkdtemp` directory. Finally
`_repr` is set to the IMAGEGEN token. -/
def imageWrapperInitBody (root : Option String) (net : Except Unit (List Nat))
    (freshDir freshId : String) (fs : FileSystem) (image : ImageInput) :
    Except PyError (OutputWrapper × FileSystem) :=
  match image with
  | .str s =>
    let pfs :=
      if fs.isfile s then (s, fs)
      else get_remote_file root net freshDir freshId s "png" fs
    match imageOpen pfs.2 pfs.1 with
    | .ok img =>
      .ok ({ _repr := some ("![IMAGEGEN](" ++ pfs.1 ++ ")"),
             _path := some pfs.1, _raw_data := some img,
             root_path := root }, pfs.2)
    | .error (.fileNotFound _) =>
      .error (.fileNotFound ("Invalid path: " ++ s))
    | .error e => .error e
  | .arr a =>
    let img := fromarray_uint8 a
    let dfs := mkdtemp root freshDir fs
    let p := joinPath dfs.1 (freshId ++ ".png")
    .ok ({ _repr := some ("![IMAGEGEN](" ++ p ++ ")"),
           _path := some p, _raw_data := some img,
           root_path := root }, writeFile dfs.2 p (encodePng img))
  | .img i =>
    let dfs := mkdtemp root freshDir fs
    let p := joinPath dfs.1 (freshId ++ ".png")
    .ok ({ _repr := some ("![IMAGEGEN](" ++ p ++ ")"),
           _path := some p, _raw_data := some i,
           root_path := root }, writeFile dfs.2 p (encodePng i))

/-- `ImageWrapper.__init__(image)`: `super().__init__()` (root resolution)
followed by the image-specific body. -/
def imageWrapperInit (env : Option String) (path_exists : String → Bool)
    (makedirs : String → Except PyError Unit) (net : Except Unit (List Nat))
    (freshDir freshId : String) (fs : FileSystem) (image : ImageInput) :
    Except PyError (OutputWrapper × FileSystem) :=
  match outputWrapperInitRoot env path_exists makedirs with
  | .error e => .error e
  | .ok root => imageWrapperInitBody root net freshDir freshId fs image

/-- Values that can appear in the `exec_result` mapping passed to
`get_raw_output`: wrapper instances and (opaque) non-wrapper values; images
appear in results as substituted `raw_data`. -/
inductive PyValue
  | wrapper (w : OutputWrapper)
  | image (i : PILImage)
  | str (s : String)
  | int (n : Int)
deriving Repr, DecidableEq

/-- `str(v)` on a wrapper: dispatches to `OutputWrapper.__repr__`, which
returns `self._repr`; when that is `None`, Python raises
`TypeError: __str__ returned non-string (type NoneType)`. -/
def pyStrOfWrapper (w : OutputWrapper) : Except PyError PyValue :=
  match w._repr with
  | some s => .ok (.str s)
  | none => .error (.typeError "__str__ returned non-string (type NoneType)")

/-- The value computed for one entry of `get_raw_output`:
`v.raw_data or str(v)` for a wrapper (a present PIL image is always truthy,
`None` is falsy), the value itself otherwise. -/
def rawOutputValue : PyValue → Except PyError PyValue
  | .wrapper w =>
    match w._raw_data with
    | some img => .ok (.image img)
    | none => pyStrOfWrapper w
  | other => .ok other

/-- `get_raw_output(exec_result)`: builds the result mapping entry by entry;
an exception raised while computing an entry aborts the whole call. -/
def get_raw_output : List (String × PyValue) →
    Except PyError (List (String × PyValue))
  | [] => .ok []
  | (k, v) :: rest =>
    match rawOutputValue v with
    | .error e => .error e
    | .ok v2 =>
      match get_raw_output rest with
      | .error e => .error e
      | .ok rest2 => .ok ((k, v2) :: rest2)

/-- Modelled from the spec (refinement target for the raw-output contract):
for each entry, a wrapper value is replaced by its `raw_data` when present,
else by its textual representation; non-wrapper values pass through. -/
def rawOutputContract (m : List (String × PyValue)) :
    List (String × PyValue) :=
  m.map fun kv =>
    (kv.1,
     match kv.2 with
     | .wrapper w =>
       match w._raw_data with
       | some img => .image img
       | none => .str (w._repr.getD "")
     | other => other)

/-- A mapping value is benign for `get_raw_output`: any wrapper in it has
`raw_data` present or its textual representation set. -/
def wrapperDefined : PyValue → Bool
  | .wrapper w => w._raw_data.isSome || w._repr.isSome
  | _ => true

/-- The wrapper's `storage_path` points at an unmaterialised remote resource:
a path is set but no local file backs it. -/
def unmaterializedRemote (fs : FileSystem) (w : OutputWrapper) : Prop :=
  ∃ p, w._path = some p ∧ fs.isfile p = false

/-- A local, decodable image input: a numeric array, a decoded image handle,
or a string naming an existing file whose bytes decode; `img` is the decoded
image the wrapper should hold. -/
def localDecodable (fs : FileSystem) (input : ImageInput) (img : PILImage) :
    Prop :=
  (∃ a, input = .arr a ∧ img = fromarray_uint8 a) ∨
  (∃ i, input = .img i ∧ img = i) ∨
  (∃ s bs, input = .str s ∧ fs.files.lookup s = some bs ∧
    decodePng bs = some img)

/-! ## Helper lemmas -/

theorem outputWrapperInitRoot_eq (env : Option String)
    (path_exists : String → Bool) (makedirs : String → Except PyError Unit) :
    outputWrapperInitRoot env path_exists makedirs =
      .ok (resolveRoot env path_exists makedirs) := by
  unfold outputWrapperInitRoot resolveRoot
  cases env with
  | none => rfl
  | some r =>
    by_cases h : (r != "" && !(path_exists r)) = true
    · simp only [h, if_true]
      cases makedirs r <;> rfl
    · simp [eq_false_of_ne_true h]

theorem imageWrapperInit_eq (env : Option String)
    (path_exists : String → Bool) (makedirs : String → Except PyError Unit)
    (net : Except Unit (List Nat)) (freshDir freshId : String)
    (fs : FileSystem) (image : ImageInput) :
    imageWrapperInit env path_exists makedirs net freshDir freshId fs image =
      imageWrapperInitBody (resolveRoot env path_exists makedirs) net
        freshDir freshId fs image := by
  unfold imageWrapperInit
  rw [outputWrapperInitRoot_eq]

theorem decodePng_encodePng (img : PILImage) :
    decodePng (encodePng img) = some img := by
  unfold decodePng encodePng pngMagic
  simp

theorem imageOpen_ok_iff (fs : FileSystem) (p : String) (img : PILImage) :
    imageOpen fs p = .ok img ↔
      ∃ bs, fs.files.lookup p = some bs ∧ decodePng bs = some img := by
  unfold imageOpen
  cases hl : fs.files.lookup p with
  | none => simp
  | some bs =>
    cases hd : decodePng bs with
    | none => simp [hd]
    | some i =>
      simp only [hd]
      constructor
      · intro h
        cases h
        exact ⟨bs, rfl, hd⟩
      · rintro ⟨bs2, hbs2, hdec2⟩
        cases hbs2
        rw [hd] at hdec2
        cases hdec2
        rfl

theorem isfile_false_lookup {fs : FileSystem} {p : String}
    (h : fs.isfile p = false) : fs.files.lookup p = none := by
  unfold FileSystem.isfile at h
  exact Option.not_isSome_iff_eq_none.mp (by simp [h])

/-- Characterisation of any successful `ImageWrapper` construction: the path,
raw data and textual representation are all set, and the path names a file in
the final filesystem whose bytes decode to the stored raw data. -/
theorem initBody_ok_char (root : Option String) (net : Except Unit (List Nat))
    (freshDir freshId : String) (fs : FileSystem) (image : ImageInput)
    (w : OutputWrapper) (fs2 : FileSystem)
    (h : imageWrapperInitBody root net freshDir freshId fs image =
      .ok (w, fs2)) :
    ∃ p img bs, w._path = some p ∧ w._raw_data = some img ∧
      w._repr = some ("![IMAGEGEN](" ++ p ++ ")") ∧
      fs2.files.lookup p = some bs ∧ decodePng bs = some img := by
  cases image with
  | str s =>
    unfold imageWrapperInitBody at h
    simp only at h
    generalize hp : (if fs.isfile s then (s, fs)
      else get_remote_file root net freshDir freshId s "png" fs) = pfs at h
    cases ho : imageOpen pfs.2 pfs.1 with
    | ok img =>
      rw [ho] at h
      cases h
      obtain ⟨bs, hbs, hdec⟩ := (imageOpen_ok_iff _ _ _).mp ho
      exact ⟨pfs.1, img, bs, rfl, rfl, rfl, hbs, hdec⟩
    | error e =>
      rw [ho] at h
      cases e <;> simp at h
  | arr a =>
    unfold imageWrapperInitBody at h
    simp only [Except.ok.injEq, Prod.mk.injEq] at h
    obtain ⟨hw, hfs⟩ := h
    subst hw hfs
    refine ⟨_, _, _, rfl, rfl, rfl, ?_, decodePng_encodePng _⟩
    unfold writeFile mkdtemp
    simp [List.lookup]
  | img i =>
    unfold imageWrapperInitBody at h
    simp only [Except.ok.injEq, Prod.mk.injEq] at h
    obtain ⟨hw, hfs⟩ := h
    subst hw hfs
    refine ⟨_, _, _, rfl, rfl, rfl, ?_, decodePng_encodePng _⟩
    unfold writeFile mkdtemp
    simp [List.lookup]

theorem get_raw_output_ok (m : List (String × PyValue))
    (hm : ∀ kv ∈ m, wrapperDefined kv.2 = true) :
    get_raw_output m = .ok (rawOutputContract m) := by
  induction m with
  | nil => rfl
  | cons kv rest ih =>
    obtain ⟨k, v⟩ := kv
    have hv : wrapperDefined v = true := hm (k, v) (List.mem_cons_self _ _)
    have hrest : get_raw_output rest = .ok (rawOutputContract rest) :=
      ih fun x hx => hm x (List.mem_cons_of_mem _ hx)
    unfold get_raw_output
    cases v with
    | wrapper w =>
      cases hraw : w._raw_data with
      | some img => simp [hrest, rawOutputContract, rawOutputValue, hraw]
      | none =>
        simp only [wrapperDefined, hraw, Option.isSome_none,
          Bool.false_or] at hv
        obtain ⟨r, hr⟩ := Option.isSome_iff_exists.mp hv
        simp [hrest, rawOutputContract, rawOutputValue, hraw, pyStrOfWrapper,
          hr]
    | image i => simp [hrest, rawOutputContract, rawOutputValue]
    | str s => simp [hrest, rawOutputContract, rawOutputValue]
    | int n => simp [hrest, rawOutputContract, rawOutputValue]

/-- Shared helper: a string input that is not an existing file, whose remote
fetch fails, makes the constructor body raise the invalid-path error. -/
theorem initBody_str_net_error (root : Option String) (e : Unit)
    (freshDir freshId s : String) (fs : FileSystem)
    (h1 : fs.isfile s = false) :
    imageWrapperInitBody root (.error e) freshDir freshId fs (.str s) =
      .error (.fileNotFound ("Invalid path: " ++ s)) := by
  unfold imageWrapperInitBody
  simp only [h1, Bool.false_eq_true, if_false]
  unfold get_remote_file
  simp only [imageOpen, isfile_false_lookup h1]

/-! ## Claims -/

/-- Claim C1, counterexample: for the non-file input
`http://host/img.png` whose retrieval fails, `ImageWrapper` construction does
raise (a `FileNotFoundError`), contradicting the claim that construction
completes without raising with `storage_path` equal to the input. -/
theorem C1_counterexample :
    imageWrapperInit none (fun _ => false) (fun _ => .ok ()) (.error ())
      "d0" "u0" ⟨[], []⟩ (.str "http://host/img.png") =
      .error (.fileNotFound "Invalid path: http://host/img.png") := rfl

/-- Claim C1 (amended): for every string input that is not an existing local
file and whose remote retrieval fails with a network exception,
`ImageWrapper` construction does not complete: it raises a
`FileNotFoundError`, so no wrapper (in particular none with absent
`raw_data`) is produced. -/
theorem C1_amended_raises (env : Option String) (path_exists : String → Bool)
    (makedirs : String → Except PyError Unit) (freshDir freshId s : String)
    (fs : FileSystem) (e : Unit) (h1 : fs.isfile s = false) :
    (∃ msg, imageWrapperInit env path_exists makedirs (.error e) freshDir
        freshId fs (.str s) = .error (.fileNotFound msg)) ∧
    ∀ r, imageWrapperInit env path_exists makedirs (.error e) freshDir
        freshId fs (.str s) ≠ .ok r := by
  rw [imageWrapperInit_eq, initBody_str_net_error _ _ _ _ _ _ h1]
  exact ⟨⟨_, rfl⟩, fun r h => by cases h⟩

/-- Witness for the amended claim C1 at a concrete non-file input. -/
theorem C1_amended_raises_witness :
    (∃ msg, imageWrapperInit (some "cfg") (fun _ => true) (fun _ => .ok ())
        (.error ()) "d1" "u1" ⟨[], []⟩ (.str "http://h/a.png") =
        .error (.fileNotFound msg)) ∧
    ∀ r, imageWrapperInit (some "cfg") (fun _ => true) (fun _ => .ok ())
        (.error ()) "d1" "u1" ⟨[], []⟩ (.str "http://h/a.png") ≠ .ok r :=
  C1_amended_raises (some "cfg") (fun _ => true) (fun _ => .ok ())
    "d1" "u1" "http://h/a.png" ⟨[], []⟩ () rfl

/-- Claim C2 (confirmed): for every string input that is not an existing
local file and whose remote retrieval also fails, `ImageWrapper` construction
raises a `FileNotFoundError` whose message carries the original input string
verbatim, after the literal marker `Invalid path: `. -/
theorem C2_invalid_path_error (env : Option String)
    (path_exists : String → Bool) (makedirs : String → Except PyError Unit)
    (freshDir freshId s : String) (fs : FileSystem) (e : Unit)
    (h1 : fs.isfile s = false) :
    imageWrapperInit env path_exists makedirs (.error e) freshDir freshId fs
      (.str s) = .error (.fileNotFound ("Invalid path: " ++ s)) := by
  rw [imageWrapperInit_eq]
  exact initBody_str_net_error _ _ _ _ _ _ h1

/-- Witness for claim C2 at a concrete non-file input. -/
theorem C2_invalid_path_error_witness :
    imageWrapperInit none (fun _ => false) (fun _ => .ok ()) (.error ())
      "d2" "u2" ⟨[("other.png", [0])], []⟩ (.str "http://x/y.png") =
      .error (.fileNotFound "Invalid path: http://x/y.png") :=
  C2_invalid_path_error none (fun _ => false) (fun _ => .ok ()) "d2" "u2"
    "http://x/y.png" ⟨[("other.png", [0])], []⟩ () rfl

/-- Claim C3 (confirmed): every successfully constructed `ImageWrapper`,
whatever the input variant, has textual representation exactly
`![IMAGEGEN](` followed by its storage path followed by `)`. -/
theorem C3_textual_representation (env : Option String)
    (path_exists : String → Bool) (makedirs : String → Except PyError Unit)
    (net : Except Unit (List Nat)) (freshDir freshId : String)
    (fs : FileSystem) (image : ImageInput) (w : OutputWrapper)
    (fs2 : FileSystem)
    (h : imageWrapperInit env path_exists makedirs net freshDir freshId fs
      image = .ok (w, fs2)) :
    ∃ p, w._path = some p ∧ w._repr = some ("![IMAGEGEN](" ++ p ++ ")") := by
  rw [imageWrapperInit_eq] at h
  obtain ⟨p, img, bs, hp, _, hrepr, _, _⟩ :=
    initBody_ok_char _ _ _ _ _ _ _ _ h
  exact ⟨p, hp, hrepr⟩

/-- Witness for claim C3 at a concrete decoded-image input. -/
theorem C3_textual_representation_witness :
    ∃ p, (OutputWrapper.mk (some "![IMAGEGEN](/tmp/d3/u3.png)")
        (some "/tmp/d3/u3.png") (some ⟨[7]⟩) none)._path = some p ∧
      (OutputWrapper.mk (some "![IMAGEGEN](/tmp/d3/u3.png)")
        (some "/tmp/d3/u3.png") (some ⟨[7]⟩) none)._repr =
        some ("![IMAGEGEN](" ++ p ++ ")") :=
  C3_textual_representation none (fun _ => false) (fun _ => .ok ())
    (.error ()) "d3" "u3" ⟨[], []⟩ (.img ⟨[7]⟩)
    (OutputWrapper.mk (some "![IMAGEGEN](/tmp/d3/u3.png)")
      (some "/tmp/d3/u3.png") (some ⟨[7]⟩) none)
    ⟨[("/tmp/d3/u3.png", [137, 80, 78, 71, 7])], ["/tmp/d3"]⟩ rfl

/-- Claim C4, counterexample: on a mapping holding a wrapper with `raw_data`
absent and `_repr` unset (as `OutputWrapper.__init__` leaves them),
`get_raw_output` raises a `TypeError` instead of returning a mapping. -/
theorem C4_counterexample :
    get_raw_output [("k", .wrapper ⟨none, none, none, some "/r"⟩)] =
      .error (.typeError "__str__ returned non-string (type NoneType)") := rfl

/-- Claim C4 (amended): for every input mapping in which each wrapper value
has `raw_data` present or its textual representation set, `get_raw_output`
returns a mapping with exactly the same keys where each wrapper value is
replaced by its `raw_data` when present and by its textual representation
otherwise, and every non-wrapper value appears unchanged. -/
theorem C4_amended_contract (m : List (String × PyValue))
    (hm : ∀ kv ∈ m, wrapperDefined kv.2 = true) :
    get_raw_output m = .ok (rawOutputContract m) ∧
    (rawOutputContract m).map Prod.fst = m.map Prod.fst := by
  refine ⟨get_raw_output_ok m hm, ?_⟩
  simp [rawOutputContract, List.map_map, Function.comp]

/-- Witness for the amended claim C4 on a mixed concrete mapping. -/
theorem C4_amended_contract_witness :
    get_raw_output
        [("a", .wrapper ⟨some "t1", some "/p1", some ⟨[1]⟩, none⟩),
         ("b", .wrapper ⟨some "t2", some "/p2", none, none⟩),
         ("c", .int 5)] =
      .ok (rawOutputContract
        [("a", .wrapper ⟨some "t1", some "/p1", some ⟨[1]⟩, none⟩),
         ("b", .wrapper ⟨some "t2", some "/p2", none, none⟩),
         ("c", .int 5)]) ∧
    (rawOutputContract
        [("a", .wrapper ⟨some "t1", some "/p1", some ⟨[1]⟩, none⟩),
         ("b", .wrapper ⟨some "t2", some "/p2", none, none⟩),
         ("c", .int 5)]).map Prod.fst =
      [("a", PyValue.wrapper ⟨some "t1", some "/p1", some ⟨[1]⟩, none⟩),
       ("b", PyValue.wrapper ⟨some "t2", some "/p2", none, none⟩),
       ("c", PyValue.int 5)].map Prod.fst :=
  C4_amended_contract
    [("a", .wrapper ⟨some "t1", some "/p1", some ⟨[1]⟩, none⟩),
     ("b", .wrapper ⟨some "t2", some "/p2", none, none⟩),
     ("c", .int 5)] (by decide)

/-- Claim C5, counterexample: `get_raw_output` is not total — on a wrapper
with both `raw_data` and the textual representation absent it raises. -/
theorem C5_counterexample :
    get_raw_output [("x", .wrapper ⟨none, some "/q", none, none⟩),
                    ("y", .int 0)] =
      .error (.typeError "__str__ returned non-string (type NoneType)") := rfl

/-- Claim C5 (amended): `get_raw_output` never fails on mappings whose
wrapper values each have `raw_data` present or a set textual representation;
totality does not extend to wrappers with both absent. -/
theorem C5_amended_total (m : List (String × PyValue))
    (hm : ∀ kv ∈ m, wrapperDefined kv.2 = true) :
    ∃ res, get_raw_output m = .ok res :=
  ⟨rawOutputContract m, get_raw_output_ok m hm⟩

/-- Witness for the amended claim C5 on a concrete mapping. -/
theorem C5_amended_total_witness :
    ∃ res, get_raw_output [("z", .wrapper ⟨some "tok", none, none, none⟩)] =
      .ok res :=
  C5_amended_total [("z", .wrapper ⟨some "tok", none, none, none⟩)]
    (by decide)

/-- Claim C6 (confirmed): `get_remote_file` on a successful retrieval writes
the returned bytes to `<root>/<freshDir>/<freshId>.<sfx>` inside the newly
created directory `<root>/<freshDir>` and returns that path; on a network
failure it returns the original locator unchanged and the filesystem is
untouched. -/
theorem C6_get_remote_file_spec (root : Option String)
    (net : Except Unit (List Nat))
    (freshDir freshId remote_path sfx : String) (fs : FileSystem) :
    (∀ obj, net = .ok obj →
      get_remote_file root net freshDir freshId remote_path sfx fs =
        (joinPath (joinPath (root.getD tempDefault) freshDir)
           (freshId ++ "." ++ sfx),
         ⟨(joinPath (joinPath (root.getD tempDefault) freshDir)
             (freshId ++ "." ++ sfx), obj) :: fs.files,
          joinPath (root.getD tempDefault) freshDir :: fs.dirs⟩)) ∧
    (∀ e, net = .error e →
      get_remote_file root net freshDir freshId remote_path sfx fs =
        (remote_path, fs)) := by
  constructor
  · rintro obj rfl
    rfl
  · rintro e rfl
    rfl

/-- Witness for claim C6: a concrete successful fetch materialises the file,
and a concrete failed fetch changes nothing. -/
theorem C6_get_remote_file_spec_witness :
    get_remote_file (some "rt") (.ok [9]) "dd" "uu" "http://rp" "png"
        ⟨[("f", [1])], ["x"]⟩ =
      ("rt/dd/uu.png",
       ⟨[("rt/dd/uu.png", [9]), ("f", [1])], ["rt/dd", "x"]⟩) :=
  (C6_get_remote_file_spec (some "rt") (.ok [9]) "dd" "uu" "http://rp" "png"
    ⟨[("f", [1])], ["x"]⟩).1 [9] rfl

/-- Claim C8 (confirmed): root-directory resolution in
`OutputWrapper.__init__` never raises, whatever the configured value and the
outcomes of the existence check and `os.makedirs`; and when the configured
directory does not exist and its creation fails, it silently falls back to no
configured root. -/
theorem C8_root_resolution_never_raises (env : Option String)
    (path_exists : String → Bool) (makedirs : String → Except PyError Unit) :
    (∃ root, outputWrapperInitRoot env path_exists makedirs = .ok root) ∧
    (∀ r e, env = some r → r ≠ "" → path_exists r = false →
      makedirs r = .error e →
      outputWrapperInitRoot env path_exists makedirs = .ok none) := by
  refine ⟨⟨_, outputWrapperInitRoot_eq _ _ _⟩, ?_⟩
  rintro r e rfl hne hpe hmk
  unfold outputWrapperInitRoot
  have hc : (r != "" && !(path_exists r)) = true := by
    simp [hpe, hne]
  simp only [hc, if_true, hmk]

/-- Witness for claim C8: a concrete uncreatable configured directory
resolves to no root without an exception. -/
theorem C8_root_resolution_never_raises_witness :
    outputWrapperInitRoot (some "cfgdir") (fun _ => false)
      (fun _ => .error (.typeError "mkfail")) = .ok none :=
  (C8_root_resolution_never_raises (some "cfgdir") (fun _ => false)
    (fun _ => .error (.typeError "mkfail"))).2 "cfgdir"
    (.typeError "mkfail") rfl (by decide) rfl rfl

/-- Claim C7 (confirmed): every successfully constructed `ImageWrapper`
satisfies the invariant — exactly one of `raw_data` present or
`storage_path` pointing to an unmaterialised remote resource holds (in fact
always the former), and the textual representation is non-null. -/
theorem C7_invariant (env : Option String) (path_exists : String → Bool)
    (makedirs : String → Except PyError Unit) (net : Except Unit (List Nat))
    (freshDir freshId : String) (fs : FileSystem) (image : ImageInput)
    (w : OutputWrapper) (fs2 : FileSystem)
    (h : imageWrapperInit env path_exists makedirs net freshDir freshId fs
      image = .ok (w, fs2)) :
    ((w._raw_data.isSome = true ∧ ¬ unmaterializedRemote fs2 w) ∨
      (w._raw_data = none ∧ unmaterializedRemote fs2 w)) ∧
    w._repr ≠ none := by
  rw [imageWrapperInit_eq] at h
  obtain ⟨p, img, bs, hp, hraw, hrepr, hlook, _⟩ :=
    initBody_ok_char _ _ _ _ _ _ _ _ h
  refine ⟨Or.inl ⟨by simp [hraw], ?_⟩, by simp [hrepr]⟩
  rintro ⟨q, hq, hq2⟩
  rw [hp] at hq
  injection hq with hpq
  subst hpq
  rw [isfile_false_lookup hq2] at hlook
  cases hlook

/-- Witness for claim C7 at a concrete array input. -/
theorem C7_invariant_witness :
    (((OutputWrapper.mk (some "![IMAGEGEN](/tmp/d7/u7.png)")
        (some "/tmp/d7/u7.png") (some ⟨[2]⟩) none)._raw_data.isSome = true ∧
      ¬ unmaterializedRemote
        ⟨[("/tmp/d7/u7.png", [137, 80, 78, 71, 2])], ["/tmp/d7"]⟩
        (OutputWrapper.mk (some "![IMAGEGEN](/tmp/d7/u7.png)")
          (some "/tmp/d7/u7.png") (some ⟨[2]⟩) none)) ∨
     ((OutputWrapper.mk (some "![IMAGEGEN](/tmp/d7/u7.png)")
        (some "/tmp/d7/u7.png") (some ⟨[2]⟩) none)._raw_data = none ∧
      unmaterializedRemote
        ⟨[("/tmp/d7/u7.png", [137, 80, 78, 71, 2])], ["/tmp/d7"]⟩
        (OutputWrapper.mk (some "![IMAGEGEN](/tmp/d7/u7.png)")
          (some "/tmp/d7/u7.png") (some ⟨[2]⟩) none))) ∧
    (OutputWrapper.mk (some "![IMAGEGEN](/tmp/d7/u7.png)")
      (some "/tmp/d7/u7.png") (some ⟨[2]⟩) none)._repr ≠ none :=
  C7_invariant none (fun _ => false) (fun _ => .ok ()) (.error ())
    "d7" "u7" ⟨[], []⟩ (.arr [2])
    (OutputWrapper.mk (some "![IMAGEGEN](/tmp/d7/u7.png)")
      (some "/tmp/d7/u7.png") (some ⟨[2]⟩) none)
    ⟨[("/tmp/d7/u7.png", [137, 80, 78, 71, 2])], ["/tmp/d7"]⟩ rfl

/-- Claim C9 (confirmed): for every local, decodable image input (array,
decoded handle, or existing decodable file path), construction succeeds,
`raw_data` holds the decoded image, and the storage path names an existing
file that decodes back to the very same image. -/
theorem C9_local_roundtrip (env : Option String) (path_exists : String → Bool)
    (makedirs : String → Except PyError Unit) (net : Except Unit (List Nat))
    (freshDir freshId : String) (fs : FileSystem) (input : ImageInput)
    (img : PILImage) (h : localDecodable fs input img) :
    ∃ w fs2 p, imageWrapperInit env path_exists makedirs net freshDir freshId
        fs input = .ok (w, fs2) ∧
      w._raw_data = some img ∧ w._path = some p ∧
      fs2.isfile p = true ∧ imageOpen fs2 p = .ok img := by
  rw [imageWrapperInit_eq]
  generalize resolveRoot env path_exists makedirs = root
  rcases h with ⟨a, rfl, rfl⟩ | ⟨i, rfl, rfl⟩ | ⟨s, bs, rfl, hlook, hdec⟩
  · refine ⟨_, _, _, rfl, rfl, rfl, ?_, ?_⟩
    · simp [imageWrapperInitBody, mkdtemp, writeFile, FileSystem.isfile,
        List.lookup]
    · simp [imageWrapperInitBody, mkdtemp, writeFile, imageOpen,
        List.lookup, decodePng_encodePng]
  · refine ⟨_, _, _, rfl, rfl, rfl, ?_, ?_⟩
    · simp [imageWrapperInitBody, mkdtemp, writeFile, FileSystem.isfile,
        List.lookup]
    · simp [imageWrapperInitBody, mkdtemp, writeFile, imageOpen,
        List.lookup, decodePng_encodePng]
  · have hisfile : fs.isfile s = true := by
      simp [FileSystem.isfile, hlook]
    have hopen : imageOpen fs s = .ok img := by
      simp [imageOpen, hlook, hdec]
    have heq : imageWrapperInitBody root net freshDir freshId fs (.str s) =
        .ok (⟨some ("![IMAGEGEN](" ++ s ++ ")"), some s, some img, root⟩,
          fs) := by
      simp [imageWrapperInitBody, hisfile, hopen]
    exact ⟨_, _, s, heq, rfl, rfl, hisfile, hopen⟩

/-- Witness for claim C9 at a concrete pixel-array input whose entries wrap
modulo 256. -/
theorem C9_local_roundtrip_witness :
    ∃ w fs2 p, imageWrapperInit none (fun _ => false) (fun _ => .ok ())
        (.error ()) "d9" "u9" ⟨[], []⟩ (.arr [300, 5]) = .ok (w, fs2) ∧
      w._raw_data = some (fromarray_uint8 [300, 5]) ∧ w._path = some p ∧
      fs2.isfile p = true ∧ imageOpen fs2 p = .ok (fromarray_uint8 [300, 5]) :=
  C9_local_roundtrip none (fun _ => false) (fun _ => .ok ()) (.error ())
    "d9" "u9" ⟨[], []⟩ (.arr [300, 5]) (fromarray_uint8 [300, 5])
    (Or.inl ⟨[300, 5], rfl, rfl⟩)

/-- Claim C10 (confirmed): whenever `ImageWrapper` construction completes
without raising, `raw_data` is set — the remote-only state with `raw_data`
absent is unreachable through `ImageWrapper.__init__`. -/
theorem C10_raw_data_on_success (env : Option String)
    (path_exists : String → Bool) (makedirs : String → Except PyError Unit)
    (net : Except Unit (List Nat)) (freshDir freshId : String)
    (fs : FileSystem) (image : ImageInput) (w : OutputWrapper)
    (fs2 : FileSystem)
    (h : imageWrapperInit env path_exists makedirs net freshDir freshId fs
      image = .ok (w, fs2)) :
    w._raw_data.isSome = true := by
  rw [imageWrapperInit_eq] at h
  obtain ⟨p, img, bs, _, hraw, _, _, _⟩ :=
    initBody_ok_char _ _ _ _ _ _ _ _ h
  simp [hraw]

/-- Witness for claim C10 at a concrete existing decodable file path. -/
theorem C10_raw_data_on_success_witness :
    (OutputWrapper.mk (some "![IMAGEGEN](a.png)") (some "a.png")
      (some ⟨[3]⟩) none)._raw_data.isSome = true :=
  C10_raw_data_on_success none (fun _ => false) (fun _ => .ok ())
    (.error ()) "da" "ua" ⟨[("a.png", [137, 80, 78, 71, 3])], []⟩
    (.str "a.png")
    (OutputWrapper.mk (some "![IMAGEGEN](a.png)") (some "a.png")
      (some ⟨[3]⟩) none)
    ⟨[("a.png", [137, 80, 78, 71, 3])], []⟩ rfl
